import Mathlib

/-!
Verification development for the mycutils library (RichTGale/mycutils).

The repository contains two variants of the library code: the file
mycutils.c and a newer revision embedded in main.c.  Where the two
variants differ, the definitions below model both and say which is which.

Machine integers are modelled as Int (signed 64-bit values, with
explicit no-overflow side conditions where the C arithmetic could wrap)
or Nat with explicit reduction modulo 2 ^ 32 / 2 ^ 64 where the C code
performs unsigned arithmetic.  C strings are modelled as lists of byte
values; heap buffers whose allocation size matters are modelled by the
CBuf structure, which tracks the allocated size and every write, so that
an out-of-bounds access is an explicit failure of the model.
-/

namespace Mycutils

/-! ## Time: check_timer and start_timer

In C, struct timespec has a signed 64-bit tv_sec (time_t) and a signed
64-bit tv_nsec (long).  We model both components as Int.
-/

/-- One side of a timespec subtraction stays inside signed 64-bit range. -/
def inInt64 (x : Int) : Prop := -(2 ^ 63) ≤ x ∧ x < 2 ^ 63

instance (x : Int) : Decidable (inInt64 x) := by
  unfold inInt64; infer_instance

/-- Modelled from the spec: the constant NANOS_PER_SEC is defined in
mycutils.h, which is not part of the available sources; the spec states
that the seconds component is multiplied by 1e9. -/
def NANOS_PER_SEC : Int := 1000000000

/-- A struct timespec value: seconds and sub-second nanoseconds. -/
structure Timespec where
  tv_sec : Int
  tv_nsec : Int
deriving DecidableEq

/-- The signed nanosecond delta computed by check_timer (both variants):
elapsed.tv_sec = current.tv_sec - start.tv_sec,
elapsed.tv_nsec = current.tv_nsec - start.tv_nsec, and the comparison
uses elapsed.tv_sec * NANOS_PER_SEC + elapsed.tv_nsec.  This is the
exact mathematical value; theorems that depend on the C arithmetic not
wrapping carry explicit inInt64 side conditions. -/
def elapsedNanos (start current : Timespec) : Int :=
  (current.tv_sec - start.tv_sec) * NANOS_PER_SEC
    + (current.tv_nsec - start.tv_nsec)

/-- Conversion of a signed 64-bit value to uint64_t, as performed by the
usual arithmetic conversions when the signed left-hand side of the
comparison in check_timer meets the uint64_t wait_time. -/
def toUInt64Val (x : Int) : Nat := (x % (18446744073709551616 : Int)).toNat

/-- check_timer from mycutils.c lines 18-39 and the main.c variant lines
119-137 (the two variants compute the same comparison): obtains the
current time, forms the signed nanosecond delta, and tests
delta >= wait_time, a comparison between a signed 64-bit value and a
uint64_t, so the delta is converted to uint64_t.  The current time is an
explicit argument here because the clock is an external capability. -/
def check_timer (start current : Timespec) (wait_time : Nat) : Bool :=
  decide (toUInt64Val (elapsedNanos start current) ≥ wait_time)

/-- Outcome of a call to start_timer: either control returns to the
caller (with the timer set to some instant, or left unset), or the
process exits with the given status.  The Bool records whether an error
diagnostic was printed. -/
inductive StartOutcome where
  | returned (ts : Option Timespec) (logged : Bool)
  | exited (status : Nat) (logged : Bool)
deriving DecidableEq

/-- Result of the underlying clock_gettime call. -/
inductive ClockResult where
  | ok (t : Timespec)
  | fail
deriving DecidableEq

/-- start_timer from mycutils.c lines 45-55: on clock failure it prints
an error to stderr and then falls off the end of the function, returning
normally with the timer never assigned. -/
def start_timer_v1 : ClockResult → StartOutcome
  | ClockResult.ok t => StartOutcome.returned (some t) false
  | ClockResult.fail => StartOutcome.returned none true

/-- start_timer from the main.c variant lines 143-156: on clock failure
it prints an error to stderr and calls exit(EXIT_FAILURE); EXIT_FAILURE
is 1. -/
def start_timer_v2 : ClockResult → StartOutcome
  | ClockResult.ok t => StartOutcome.returned (some t) false
  | ClockResult.fail => StartOutcome.exited 1 true

/-! ## Claim C1 -/

/-- C1 counterexample: the claim states that check_timer returns true if
and only if the signed delta D satisfies D >= T, and that D < T by even
one nanosecond yields false.  With start one second after current the
signed delta is -1e9 < 5, yet check_timer with threshold 5 returns true,
because the negative delta converts to a huge uint64_t value. -/
theorem check_timer_iff_fails_on_negative_delta :
    elapsedNanos ⟨1, 0⟩ ⟨0, 0⟩ < 5 ∧
      check_timer ⟨1, 0⟩ ⟨0, 0⟩ 5 = true := by
  constructor
  · decide
  · rfl

/-- C1 (amended): for every start and current instant whose signed
nanosecond delta D is nonnegative (and representable in the signed
64-bit arithmetic the code uses), and every threshold T, check_timer
returns true iff D >= T; the boundary D = T counts as elapsed and
D < T by even one nanosecond yields false.  The restriction to D >= 0 is
forced by the unsigned conversion exhibited in the counterexample. -/
theorem check_timer_true_iff_delta_ge_threshold
    (start current : Timespec) (wait_time : Nat)
    (hnonneg : 0 ≤ elapsedNanos start current)
    (hrange : elapsedNanos start current < 2 ^ 63) :
    check_timer start current wait_time = true ↔
      (wait_time : Int) ≤ elapsedNanos start current := by
  simp only [check_timer, toUInt64Val, ge_iff_le, decide_eq_true_eq]
  omega

/-- C1 witness: at the inclusive boundary, 5 elapsed nanoseconds against
a threshold of 5 counts as elapsed. -/
theorem check_timer_true_iff_delta_ge_threshold_witness :
    0 ≤ elapsedNanos ⟨0, 0⟩ ⟨0, 5⟩ ∧
      elapsedNanos ⟨0, 0⟩ ⟨0, 5⟩ < 2 ^ 63 ∧
      (check_timer ⟨0, 0⟩ ⟨0, 5⟩ 5 = true ↔
        ((5 : Nat) : Int) ≤ elapsedNanos ⟨0, 0⟩ ⟨0, 5⟩) :=
  ⟨by decide, by decide,
    check_timer_true_iff_delta_ge_threshold ⟨0, 0⟩ ⟨0, 5⟩ 5
      (by decide) (by decide)⟩

/-! ## Claim C8 -/

/-- C8: the delta computation in check_timer does not overflow the
signed 64-bit arithmetic used, for all start/current pairs with valid
sub-second nanosecond fields whose seconds difference is at most 1e9
seconds in magnitude (about 31 years, far beyond multi-hour): the
seconds subtraction, the nanosecond subtraction, the multiplication by
NANOS_PER_SEC and the final sum all stay inside signed 64-bit range. -/
theorem check_timer_delta_no_overflow (start current : Timespec)
    (h1 : 0 ≤ start.tv_nsec) (h2 : start.tv_nsec < 1000000000)
    (h3 : 0 ≤ current.tv_nsec) (h4 : current.tv_nsec < 1000000000)
    (h5 : -(1000000000) ≤ current.tv_sec - start.tv_sec)
    (h6 : current.tv_sec - start.tv_sec ≤ 1000000000) :
    inInt64 (current.tv_sec - start.tv_sec) ∧
      inInt64 (current.tv_nsec - start.tv_nsec) ∧
      inInt64 ((current.tv_sec - start.tv_sec) * NANOS_PER_SEC) ∧
      inInt64 (elapsedNanos start current) := by
  have hub : (current.tv_sec - start.tv_sec) * NANOS_PER_SEC
      ≤ 1000000000 * NANOS_PER_SEC :=
    mul_le_mul_of_nonneg_right h6 (by norm_num [NANOS_PER_SEC])
  have hlb : (-(1000000000)) * NANOS_PER_SEC
      ≤ (current.tv_sec - start.tv_sec) * NANOS_PER_SEC :=
    mul_le_mul_of_nonneg_right h5 (by norm_num [NANOS_PER_SEC])
  unfold inInt64 elapsedNanos
  norm_num [NANOS_PER_SEC] at hub hlb ⊢
  omega

/-- C8 witness: a ten-hour elapsed duration satisfies the hypotheses and
every intermediate value stays in signed 64-bit range. -/
theorem check_timer_delta_no_overflow_witness :
    0 ≤ (⟨0, 0⟩ : Timespec).tv_nsec ∧
      (⟨0, 0⟩ : Timespec).tv_nsec < 1000000000 ∧
      0 ≤ (⟨36000, 7⟩ : Timespec).tv_nsec ∧
      (⟨36000, 7⟩ : Timespec).tv_nsec < 1000000000 ∧
      -(1000000000) ≤ (⟨36000, 7⟩ : Timespec).tv_sec
        - (⟨0, 0⟩ : Timespec).tv_sec ∧
      (⟨36000, 7⟩ : Timespec).tv_sec - (⟨0, 0⟩ : Timespec).tv_sec
        ≤ 1000000000 ∧
      (inInt64 ((⟨36000, 7⟩ : Timespec).tv_sec
          - (⟨0, 0⟩ : Timespec).tv_sec) ∧
        inInt64 ((⟨36000, 7⟩ : Timespec).tv_nsec
          - (⟨0, 0⟩ : Timespec).tv_nsec) ∧
        inInt64 (((⟨36000, 7⟩ : Timespec).tv_sec
          - (⟨0, 0⟩ : Timespec).tv_sec) * NANOS_PER_SEC) ∧
        inInt64 (elapsedNanos ⟨0, 0⟩ ⟨36000, 7⟩)) :=
  ⟨by decide, by decide, by decide, by decide, by decide, by decide,
    check_timer_delta_no_overflow ⟨0, 0⟩ ⟨36000, 7⟩
      (by decide) (by decide) (by decide) (by decide)
      (by decide) (by decide)⟩

/-! ## Claim C9 -/

/-- C9 counterexample: the claim states that a negative delta makes
check_timer return true for every threshold, including arbitrarily large
ones.  With a delta of -1e9 the converted uint64_t value is
2^64 - 1e9, so a threshold of 2^64 - 1 is not reached and check_timer
returns false. -/
theorem check_timer_negative_delta_large_threshold_false :
    elapsedNanos ⟨1, 0⟩ ⟨0, 0⟩ < 0 ∧
      check_timer ⟨1, 0⟩ ⟨0, 0⟩ (18446744073709551615) = false := by
  constructor
  · decide
  · rfl

/-- C9 (amended): the signed delta is indeed converted to uint64_t in
the comparison, and for every start/current pair with a negative
(signed-64-bit-representable) delta D, check_timer returns true exactly
for the thresholds T <= D + 2^64; this covers every threshold up to
2^64 - |D| (in particular all thresholds below 2^63, far beyond any
realistic wait), but not thresholds above D + 2^64, as the
counterexample shows. -/
theorem check_timer_negative_delta_true_iff (start current : Timespec)
    (wait_time : Nat)
    (hneg : elapsedNanos start current < 0)
    (hrange : -(2 ^ 63) ≤ elapsedNanos start current) :
    check_timer start current wait_time = true ↔
      (wait_time : Int) ≤ elapsedNanos start current + 2 ^ 64 := by
  simp only [check_timer, toUInt64Val, ge_iff_le, decide_eq_true_eq]
  omega

/-- C9 witness: one second of negative delta still counts as elapsed for
a 5-nanosecond threshold. -/
theorem check_timer_negative_delta_true_iff_witness :
    elapsedNanos ⟨1, 0⟩ ⟨0, 0⟩ < 0 ∧
      -(2 ^ 63) ≤ elapsedNanos ⟨1, 0⟩ ⟨0, 0⟩ ∧
      (check_timer ⟨1, 0⟩ ⟨0, 0⟩ 5 = true ↔
        ((5 : Nat) : Int) ≤ elapsedNanos ⟨1, 0⟩ ⟨0, 0⟩ + 2 ^ 64) :=
  ⟨by decide, by decide,
    check_timer_negative_delta_true_iff ⟨1, 0⟩ ⟨0, 0⟩ 5
      (by decide) (by decide)⟩

/-! ## Claim C5 -/

/-- C5 counterexample: the claim states that start_timer terminates the
process on clock failure and never returns with the timer unset; the
mycutils.c variant logs the error and then returns normally with the
timer unset. -/
theorem start_timer_v1_returns_on_clock_failure :
    start_timer_v1 ClockResult.fail = StartOutcome.returned none true ∧
      ∀ s l, start_timer_v1 ClockResult.fail ≠ StartOutcome.exited s l := by
  refine ⟨rfl, ?_⟩
  intro s l h
  simp [start_timer_v1] at h

/-- C5 (amended): in the main.c variant, start_timer terminates the
process with failure status 1 after logging when the clock read fails,
and on success returns with the timer set; in the mycutils.c variant it
logs the error but returns normally with the timer left unset. -/
theorem start_timer_clock_failure_behavior :
    start_timer_v2 ClockResult.fail = StartOutcome.exited 1 true ∧
      (∀ t, start_timer_v2 (ClockResult.ok t)
        = StartOutcome.returned (some t) false) ∧
      start_timer_v1 ClockResult.fail = StartOutcome.returned none true :=
  ⟨rfl, fun _ => rfl, rfl⟩

/-! ## Terminal line-discipline settings: scanc_nowait

scanc_nowait (identical in both variants) reads the device settings into
a local struct termios, clears ICANON and ECHO in its c_lflag, sets
c_cc[VMIN] = 1 and c_cc[VTIME] = 0, applies it, performs one read, then
sets ICANON and ECHO in the same (already modified) local struct and
applies it again.  We model the device settings as the 32-bit c_lflag
bitmask, the VMIN and VTIME control characters, and an abstract field
for every other setting; ICANON and ECHO are the Linux termios bit
values.  The model follows the path on which the tcgetattr/tcsetattr
calls succeed (on failure the code only prints to stderr and the device
keeps its previous settings).
-/

/-- The ICANON bit of c_lflag (value 2 on Linux). -/
def ICANON : Nat := 2 ^ 1

/-- The ECHO bit of c_lflag (value 8 on Linux). -/
def ECHO : Nat := 2 ^ 3

/-- All 32 bits of a tcflag_t set; x &&& (FLAGMASK ^^^ b) is the C
expression x & ~b on a 32-bit flag word. -/
def FLAGMASK : Nat := 2 ^ 32 - 1

/-- The input device line-discipline settings: the c_lflag word, the
VMIN and VTIME control characters, and an abstract remainder standing
for every other field of struct termios. -/
structure Termios where
  c_lflag : Nat
  vmin : Nat
  vtime : Nat
  rest : Nat
deriving DecidableEq

/-- The device settings after a scanc_nowait call (mycutils.c lines
198-216 and the identical main.c variant lines 316-334), as a function
of the settings before the call: the final tcsetattr applies the local
struct whose c_lflag had ICANON and ECHO cleared and then set again, and
whose VMIN/VTIME were set to 1/0 and never restored. -/
def scanc_nowait_settings (t : Termios) : Termios :=
  { c_lflag := ((t.c_lflag &&& (FLAGMASK ^^^ ICANON))
      &&& (FLAGMASK ^^^ ECHO)) ||| ICANON ||| ECHO
    vmin := 1
    vtime := 0
    rest := t.rest }

/-- Clearing single bits out of a 32-bit word and then setting them
again is the same as just setting them, for words inside 32-bit range. -/
theorem lflag_clear_then_set (x : Nat) (h : x < 2 ^ 32) :
    ((x &&& (FLAGMASK ^^^ ICANON)) &&& (FLAGMASK ^^^ ECHO))
      ||| ICANON ||| ECHO = x ||| ICANON ||| ECHO := by
  have e2 : ∀ i, Nat.testBit (2 ^ 1) i = decide (i = 1) := by
    intro i
    rw [Nat.testBit_two_pow]
    by_cases hh : i = 1 <;> simp [hh, eq_comm]
  have e8 : ∀ i, Nat.testBit (2 ^ 3) i = decide (i = 3) := by
    intro i
    rw [Nat.testBit_two_pow]
    by_cases hh : i = 3 <;> simp [hh, eq_comm]
  apply Nat.eq_of_testBit_eq
  intro i
  simp only [ICANON, ECHO, FLAGMASK, Nat.testBit_lor, Nat.testBit_land,
    Nat.testBit_xor, Nat.testBit_two_pow_sub_one, e2, e8]
  by_cases hi : i < 32
  · by_cases h1 : i = 1
    · simp [h1]
    · by_cases h3 : i = 3
      · simp [h3]
      · simp [h1, h3, hi]
  · have hx : Nat.testBit x i = false := by
      apply Nat.testBit_lt_two_pow
      exact lt_of_lt_of_le h (Nat.pow_le_pow_right (by norm_num) (by omega))
    have h1 : ¬i = 1 := by omega
    have h3 : ¬i = 3 := by omega
    simp [hx, h1, h3, hi]

/-! ## Claim C4 -/

/-- C4 counterexample: the claim states that after any scanc_nowait call
the line-discipline settings equal exactly the settings observed before
the call, for every initial settings state.  Starting from a state with
ICANON and ECHO off and VMIN = 0, the call leaves the device with
c_lflag = ICANON ||| ECHO = 10 and VMIN = 1: not the initial state. -/
theorem scanc_nowait_settings_not_restored :
    scanc_nowait_settings ⟨0, 0, 0, 0⟩ ≠ ⟨0, 0, 0, 0⟩ := by decide

/-- C4 (amended): after a scanc_nowait call the device settings equal
the prior settings with ICANON and ECHO forced on, VMIN set to 1 and
VTIME set to 0, all other settings unchanged; consequently the settings
are restored exactly if and only if the prior state already had ICANON
and ECHO enabled, VMIN = 1 and VTIME = 0. -/
theorem scanc_nowait_settings_characterization (t : Termios)
    (h : t.c_lflag < 2 ^ 32) :
    (scanc_nowait_settings t).c_lflag = t.c_lflag ||| ICANON ||| ECHO ∧
      (scanc_nowait_settings t).vmin = 1 ∧
      (scanc_nowait_settings t).vtime = 0 ∧
      (scanc_nowait_settings t).rest = t.rest ∧
      (scanc_nowait_settings t = t ↔
        (t.c_lflag ||| ICANON ||| ECHO = t.c_lflag ∧
          t.vmin = 1 ∧ t.vtime = 0)) := by
  obtain ⟨x, v, w, r⟩ := t
  have key := lflag_clear_then_set x h
  refine ⟨key, rfl, rfl, rfl, ?_⟩
  constructor
  · intro ht
    have h1 := congrArg Termios.c_lflag ht
    have h2 := congrArg Termios.vmin ht
    have h3 := congrArg Termios.vtime ht
    simp only [scanc_nowait_settings] at h1 h2 h3
    exact ⟨key.symm.trans h1, h2.symm, h3.symm⟩
  · rintro ⟨hf, hv, hw⟩
    have hv' : v = 1 := hv
    have hw' : w = 0 := hw
    have hf' : x ||| ICANON ||| ECHO = x := hf
    simp only [scanc_nowait_settings]
    rw [key, hf', hv', hw']

/-- C4 witness: a state with ICANON and ECHO on, VMIN = 1 and VTIME = 0
satisfies the characterization (and is in fact restored). -/
theorem scanc_nowait_settings_characterization_witness :
    (10 : Nat) < 2 ^ 32 ∧
      ((scanc_nowait_settings ⟨10, 1, 0, 7⟩).c_lflag
          = (10 : Nat) ||| ICANON ||| ECHO ∧
        (scanc_nowait_settings ⟨10, 1, 0, 7⟩).vmin = 1 ∧
        (scanc_nowait_settings ⟨10, 1, 0, 7⟩).vtime = 0 ∧
        (scanc_nowait_settings ⟨10, 1, 0, 7⟩).rest = 7 ∧
        (scanc_nowait_settings ⟨10, 1, 0, 7⟩ = ⟨10, 1, 0, 7⟩ ↔
          ((10 : Nat) ||| ICANON ||| ECHO = 10 ∧
            (1 : Nat) = 1 ∧ (0 : Nat) = 0))) :=
  ⟨by decide,
    scanc_nowait_settings_characterization ⟨10, 1, 0, 7⟩ (by decide)⟩

/-! ## Strings and heap buffers

C strings are modelled as lists of byte values: the bytes stored before
the terminating NUL that the last formatting call wrote.  strlen and the
value read by a %s conversion stop at the first embedded 0.  Buffers
whose allocation size matters are modelled by CBuf, which records the
allocated size and the list of performed writes (latest first); a write
outside the allocation, or a read of a never-written cell, makes the
surrounding computation fail (these are the executions that are
undefined behavior in the C code).
-/

/-- The length of the C string held in a byte list: bytes before the
first 0. -/
def strlen (s : List Nat) : Nat := (s.takeWhile (fun c => c != 0)).length

/-- The value a %s conversion reads from a byte list: the bytes before
the first 0. -/
def cstrVal (s : List Nat) : List Nat := s.takeWhile (fun c => c != 0)

/-- A malloc'd buffer: allocated size and the writes performed so far,
latest first. -/
structure CBuf where
  size : Nat
  cells : List (Nat × Nat)
deriving DecidableEq

/-- A fresh allocation of the given size, all cells uninitialized. -/
def CBuf.alloc (n : Nat) : CBuf := ⟨n, []⟩

/-- Store a byte at an index; fails when the index is outside the
allocation. -/
def CBuf.write (b : CBuf) (i v : Nat) : Option CBuf :=
  if i < b.size then some ⟨b.size, (i, v) :: b.cells⟩ else none

/-- Load the byte at an index: none when the index is outside the
allocation or the cell was never written. -/
def CBuf.readCell (b : CBuf) (i : Nat) : Option Nat :=
  if i < b.size then (b.cells.find? (fun p => p.1 == i)).map (fun p => p.2)
  else none

/-- Read the C string starting at cell 0: the bytes up to the first 0.
The fuel bounds the recursion; one more step than there are recorded
writes always suffices, because consecutive successful nonzero reads
need that many distinct initialized cells. -/
def cstrReadAux (b : CBuf) : Nat → Nat → Option (List Nat)
  | 0, _ => none
  | fuel + 1, i =>
    match b.readCell i with
    | none => none
    | some 0 => some []
    | some v => (cstrReadAux b fuel (i + 1)).map (fun l => v :: l)

/-- Read the whole C string held in a buffer, failing on an
uninitialized or out-of-bounds read before the terminating 0. -/
def CBuf.cstrRead (b : CBuf) : Option (List Nat) :=
  cstrReadAux b (b.cells.length + 1) 0

/-- 2 ^ 32, the modulus of C unsigned int arithmetic. -/
def U32 : Nat := 4294967296

/-- 2 ^ 64, the modulus of C size_t arithmetic. -/
def U64 : Nat := 18446744073709551616

/-- One iteration of the copy loop in sdelelem: for index c, the chars
with c < elem go into to_elem at index c, and the chars with c > elem go
into from_elem, also at index c (the source indexes from_elem with c
itself, not with c - elem - 1). -/
def sdelelemStep (s : List Nat) (elem : Nat) (tf : CBuf × CBuf) (c : Nat) :
    Option (CBuf × CBuf) := do
  let t ← if c < elem then tf.1.write c (s.getD c 0) else some tf.1
  let f ← if c > elem then tf.2.write c (s.getD c 0) else some tf.2
  some (t, f)

/-- sdelelem from the main.c variant lines 501-529: removes the element
at the given index from the string.  The index parameter is a C
unsigned, so its value is below 2 ^ 32.  to_elem is malloc'd with
sizeof(char) * (elem + 1) bytes, where elem + 1 wraps modulo 2 ^ 32 in
unsigned arithmetic; from_elem is malloc'd with strlen(*sp) - elem bytes
computed in size_t arithmetic.  After the copy loop the code writes a
terminating 0 at to_elem[elem] and at from_elem[strlen(*sp) - elem - 1]
and rebuilds the string as to_elem followed by from_elem. -/
def sdelelem (s : List Nat) (elem : Nat) : Option (List Nat) := do
  let len := strlen s
  let t0 := CBuf.alloc ((elem + 1) % U32)
  let f0 := CBuf.alloc ((len + U64 - elem) % U64)
  let (t1, f1) ← (List.range len).foldlM (sdelelemStep s elem) (t0, f0)
  let t2 ← t1.write elem 0
  let f2 ← f1.write ((len + U64 - elem - 1) % U64) 0
  let a ← t2.cstrRead
  let b ← f2.cstrRead
  some (a ++ b)

/-- strcpy of the given C string into a destination buffer: writes the
bytes before the first 0 and then a terminating 0, sequentially. -/
def strcpyInto (dst : CBuf) (src : List Nat) : Option CBuf :=
  ((cstrVal src).append [0]).enum.foldlM (fun b iv => b.write iv.1 iv.2) dst

/-- stringrmlast from mycutils.c lines 438-457: when the string is
empty (strlen 0) the guard makes the call a no-op; otherwise the code
copies the string with strcpy into a temps buffer malloc'd with only
strlen bytes (one byte short of what strcpy writes), allocates the
result with strlen - 1 bytes, copies the first strlen - 1 chars and
stores a terminating 0 after them. -/
def stringrmlast (s : List Nat) : Option (List Nat) :=
  if strlen s > 0 then do
    let temps ← strcpyInto (CBuf.alloc (strlen s)) s
    let tv ← temps.cstrRead
    let ns ← (List.range (tv.length - 1)).foldlM
      (fun b c => b.write c (tv.getD c 0)) (CBuf.alloc (tv.length - 1))
    let ns2 ← ns.write (tv.length - 1) 0
    ns2.cstrRead
  else some s

/-! ## The line editor: scans -/

/-- Result of the single-byte raw read inside scanc_nowait. -/
inductive ReadResult where
  | ok (c : Nat)
  | err
deriving DecidableEq

/-- The character value scanc_nowait returns: its local buf starts at 0,
a successful read stores the byte read, and a failed read only calls
perror and leaves buf at 0, so 0 is returned. -/
def scanc_nowait_ret : ReadResult → Nat
  | ReadResult.ok c => c
  | ReadResult.err => 0

/-- The argument scans passes to sdelelem on backspace:
strlen(btemp) - 1 computed in size_t arithmetic and then converted to
the unsigned parameter type; for an empty buffer this is
2 ^ 32 - 1 = 4294967295. -/
def bsArg (btemp : List Nat) : Nat := ((strlen btemp + U64 - 1) % U64) % U32

/-- The loop of scans from the main.c variant lines 278-306, driven by a
script of input bytes (the injected input-device capability).  State:
buf is the caller's buffer (the bytes its last assignment wrote, or the
uninitialized initial allocation), btemp the temporary buffer.  Byte 127
calls sdelelem on btemp only; byte 10 ends the loop and returns buf;
any other byte rebuilds buf as btemp ++ [c] via sfmt and copies it back
into btemp.  The result is none when the input script runs out (the real
code would block on the next read) or when a buffer access fails. -/
def scansLoop : List Nat → List Nat → List Nat → Option (List Nat)
  | [], _, _ => none
  | c :: rest, buf, btemp =>
    if c = 127 then
      match sdelelem btemp (bsArg btemp) with
      | none => none
      | some btemp2 => scansLoop rest buf btemp2
    else if c = 10 then some buf
    else
      let buf2 := cstrVal btemp ++ [c]
      scansLoop rest buf2 (cstrVal buf2)

/-- scans from the main.c variant lines 268-310: the caller's buffer is
malloc'd one byte and never initialized (its junk contents are the junk
argument), btemp is malloc'd and set to the empty string, then the loop
runs on the input script.  (The mycutils.c variant at lines 148-192
differs in that btemp is not initialized at all and backspace calls
stringrmlast.) -/
def scans (junk : List Nat) (input : List Nat) : Option (List Nat) :=
  scansLoop input junk []

/-- takeWhile of an already-taken list with a failing element appended
gives back the taken list. -/
theorem cstrVal_cstrVal_append_zero (l : List Nat) :
    cstrVal (cstrVal l ++ [0]) = cstrVal l := by
  unfold cstrVal
  induction l with
  | nil => simp
  | cons c cs ih =>
    by_cases hc : c = 0
    · simp [hc]
    · simpa [List.takeWhile_cons, hc] using ih

/-! ## Claim C2 -/

/-- C2: for the scripted input a, b, backspace, c, newline the line
editor returns the string ac: the backspace removes the b from btemp,
the following c rebuilds the caller's buffer from btemp, and the newline
is consumed without being appended.  The result does not depend on the
junk initially in the caller's uninitialized buffer, because the first
regular character overwrites it. -/
theorem scans_ab_backspace_c_newline :
    ∀ junk, scans junk [97, 98, 127, 99, 10] = some [97, 99] :=
  fun _ => rfl

/-! ## Claim C10 -/

/-- C10: the backspace branch of the scans loop passes the caller's
buffer through unchanged (it only rewrites btemp), and the caller's
buffer is reassigned only in the regular-character branch; consequently
for the script a, b, backspace, newline the returned string is ab, still
containing the b the backspace visually removed, whatever junk the
caller's buffer started with. -/
theorem scans_trailing_backspace_not_reflected :
    (∀ junk, scans junk [97, 98, 127, 10] = some [97, 98]) ∧
      ∀ rest buf btemp, scansLoop (127 :: rest) buf btemp
        = (sdelelem btemp (bsArg btemp)).rec none (scansLoop rest buf) := by
  constructor
  · intro junk; rfl
  · intro rest buf btemp
    simp only [scansLoop]
    cases sdelelem btemp (bsArg btemp) <;> rfl

/-! ## Claim C3 -/

/-- C3: the claim says a backspace on an empty buffer is a no-op with no
underflow or out-of-range index, and that the script backspace,
backspace, x, newline returns the string x.  The mycutils.c variant
(stringrmlast, guarded by strlen > 0) is indeed a no-op on the empty
string; but in the main.c variant the backspace branch computes
strlen(btemp) - 1 = 4294967295 by unsigned underflow and sdelelem then
writes its terminating 0 at index 4294967295 of a to_elem buffer whose
malloc'd size is (4294967295 + 1) mod 2 ^ 32 = 0 bytes, an out-of-range
store, so the scripted sequence fails instead of returning x. -/
theorem scans_backspace_on_empty_buffer :
    stringrmlast [] = some [] ∧
      bsArg [] = 4294967295 ∧
      sdelelem [] 4294967295 = none ∧
      ∀ junk, scans junk [127, 127, 120, 10] = none := by
  refine ⟨rfl, rfl, rfl, fun _ => rfl⟩

/-! ## Claim C6 -/

/-- C6: the claim says that input consisting of a single newline returns
the empty string.  The code mallocs the caller's buffer one byte and
never writes to it, and the newline branch assigns nothing, so the call
returns whatever junk the allocation contained: the junk byte 122
surfaces unchanged, and nothing guarantees an empty string. -/
theorem scans_newline_alone_returns_junk :
    (∀ junk, scans junk [10] = some junk) ∧
      scans [122] [10] = some [122] ∧
      scans [122] [10] ≠ some [] := by
  refine ⟨fun _ => rfl, rfl, ?_⟩
  intro h
  simp [scans, scansLoop] at h

/-! ## Claim C7 -/

/-- C7: a failed raw read inside scanc_nowait is non-fatal: the function
returns character value 0, and in the scans loop that 0 misses the
backspace and newline cases, so the default branch appends a NUL byte to
the line buffer and the session proceeds with the rest of the script;
the caller never sees a structured error, only the 0 byte. -/
theorem scanc_nowait_read_failure_appends_nul :
    scanc_nowait_ret ReadResult.err = 0 ∧
      ∀ buf btemp rest,
        scansLoop (scanc_nowait_ret ReadResult.err :: rest) buf btemp
          = scansLoop rest (cstrVal btemp ++ [0]) (cstrVal btemp) := by
  refine ⟨rfl, ?_⟩
  intro buf btemp rest
  simp only [scanc_nowait_ret, scansLoop]
  norm_num
  rw [cstrVal_cstrVal_append_zero]

end Mycutils
